import Mathlib

/-!
# Verification of the Sparkify ETL pipeline (`etl.py`)

A shallow embedding of the ETL pipeline of this repository:

* `process_song_file` — parses a catalog file and inserts one Song and one
  Artist row taken from the first record;
* `process_log_file` — parses an activity-log file, filters events by
  `page == "NextSong"`, inserts Time rows, User rows and Songplay rows
  (resolving `(song_id, artist_id)` via the `song_select` lookup);
* `process_data` — walks a root directory, applies a per-file handler and
  commits after each file.

Database writes are modelled as a trace of `DBOp` values, one per
`cur.execute` call, in execution order.  Durations are modelled as `ℚ`
(the source compares them only for equality); millisecond timestamps as
`ℕ`.
-/

namespace Etl

/-- One record of a catalog ("song") file: the fields of the line-delimited
JSON object read by `pd.read_json(filepath, lines=True)` in
`process_song_file`. -/
structure SongRecord where
  song_id : String
  title : String
  artist_id : String
  year : Int
  duration : ℚ
  artist_name : String
  artist_location : String
  artist_latitude : Option ℚ
  artist_longitude : Option ℚ
  deriving Repr, DecidableEq

/-- One event of an activity-log file: the fields of one line-delimited JSON
object read by `pd.read_json(filepath, lines=True)` in `process_log_file`.
`ts` is the epoch-millisecond timestamp. -/
structure LogEvent where
  page : String
  ts : Nat
  userId : String
  firstName : String
  lastName : String
  gender : String
  level : String
  song : String
  artist : String
  length : ℚ
  sessionId : Nat
  location : String
  userAgent : String
  deriving Repr, DecidableEq

/-- A row of the `songs` dimension table, as inserted by `process_song_file`. -/
structure SongRow where
  song_id : String
  title : String
  artist_id : String
  year : Int
  duration : ℚ
  deriving Repr, DecidableEq

/-- A row of the `artists` dimension table, as inserted by `process_song_file`. -/
structure ArtistRow where
  artist_id : String
  artist_name : String
  artist_location : String
  artist_latitude : Option ℚ
  artist_longitude : Option ℚ
  deriving Repr, DecidableEq

/-- A row of the `time` dimension table: the converted timestamp plus the
calendar fields pandas derives (`hour`, `day`, `week`, `month`, `year`,
`weekday`).  `start_time` keeps the epoch-millisecond value of the converted
timestamp. -/
structure TimeRow where
  start_time : Nat
  hour : Nat
  day : Nat
  week : Nat
  month : Nat
  year : Nat
  weekday : Nat
  deriving Repr, DecidableEq

/-- A row of the `users` dimension table. -/
structure UserRow where
  userId : String
  firstName : String
  lastName : String
  gender : String
  level : String
  deriving Repr, DecidableEq

/-- A row of the `songplays` fact table (without the auto-increment key).
`song_id`/`artist_id` are the nullable resolver outputs. -/
structure SongplayRow where
  start_time : Nat
  userId : String
  level : String
  song_id : Option String
  artist_id : Option String
  sessionId : Nat
  location : String
  userAgent : String
  deriving Repr, DecidableEq

/-- One `cur.execute` call, in execution order. -/
inductive DBOp where
  | songInsert (r : SongRow)
  | artistInsert (r : ArtistRow)
  | timeInsert (r : TimeRow)
  | userInsert (r : UserRow)
  | songSelect (title : String) (artistName : String) (length : ℚ)
  | songplayInsert (r : SongplayRow)
  deriving Repr, DecidableEq

/-! ## Timestamp decomposition

`pd.to_datetime(df['ts'], unit='ms')` followed by the `.dt.hour`, `.dt.day`,
`.dt.week`, `.dt.month`, `.dt.year`, `.dt.weekday` accessors.  The calendar
conversion uses the standard civil-from-days algorithm; `.dt.week` is the
ISO-8601 week ordinal and `.dt.weekday` is Monday = 0. -/

/-- Days since the Unix epoch of an epoch-millisecond timestamp. -/
def epochDays (ms : Nat) : Nat := ms / 86400000

/-- Proleptic-Gregorian (year, month, day) of a count of days since
1970-01-01 (civil-from-days). -/
def civilFromDays (days : Nat) : Nat × Nat × Nat :=
  let z := days + 719468
  let era := z / 146097
  let doe := z % 146097
  let yoe := (doe - doe / 1460 + doe / 36524 - doe / 146096) / 365
  let y := yoe + era * 400
  let doy := doe - (365 * yoe + yoe / 4 - yoe / 100)
  let mp := (5 * doy + 2) / 153
  let d := doy - (153 * mp + 2) / 5 + 1
  let m := if mp < 10 then mp + 3 else mp - 9
  (if m ≤ 2 then y + 1 else y, m, d)

/-- `.dt.hour`: hour of day, 0–23. -/
def hourOfMs (ms : Nat) : Nat := ms / 3600000 % 24

/-- `.dt.day`: day of month, 1-based. -/
def dayOfMs (ms : Nat) : Nat := (civilFromDays (epochDays ms)).2.2

/-- `.dt.month`: month, 1–12. -/
def monthOfMs (ms : Nat) : Nat := (civilFromDays (epochDays ms)).2.1

/-- `.dt.year`: calendar year. -/
def yearOfMs (ms : Nat) : Nat := (civilFromDays (epochDays ms)).1

/-- `.dt.weekday`: day of week with Monday = 0 (1970-01-01 was a Thursday). -/
def weekdayOfMs (ms : Nat) : Nat := (epochDays ms + 3) % 7

/-- Gregorian leap-year test. -/
def isLeap (y : Nat) : Bool := (y % 4 == 0 && y % 100 != 0) || y % 400 == 0

/-- Cumulative day count before month `m` in a common year. -/
def daysBeforeMonth (m : Nat) : Nat :=
  [0, 0, 31, 59, 90, 120, 151, 181, 212, 243, 273, 304, 334].getD m 0

/-- 1-based ordinal day of the year of a civil date. -/
def dayOfYear (y m d : Nat) : Nat :=
  daysBeforeMonth m + (if 2 < m && isLeap y then 1 else 0) + d

/-- Weekday of 1 January of year `y` (0 = Sunday convention), used by the
ISO week computation. -/
def jan1Weekday (y : Nat) : Nat := (y + y / 4 - y / 100 + y / 400) % 7

/-- Number of ISO-8601 weeks in year `y` (52 or 53). -/
def isoWeeksInYear (y : Nat) : Nat :=
  if jan1Weekday y = 4 ∨ jan1Weekday (y - 1) = 3 then 53 else 52

/-- `.dt.week`: ISO-8601 week ordinal of the year. -/
def weekOfMs (ms : Nat) : Nat :=
  let days := epochDays ms
  let ymd := civilFromDays days
  let doy := dayOfYear ymd.1 ymd.2.1 ymd.2.2
  let isoWd := (days + 3) % 7 + 1
  let w := (doy + 10 - isoWd) / 7
  if w = 0 then isoWeeksInYear (ymd.1 - 1)
  else if w = 53 ∧ isoWeeksInYear ymd.1 = 52 then 1
  else w

/-- The `time` row derived from one epoch-millisecond timestamp:
`(start_time, hour, day, week, month, year, weekday)` as in the
`time_data`/`column_labels` zip of `process_log_file`. -/
def mkTimeRow (ms : Nat) : TimeRow :=
  ⟨ms, hourOfMs ms, dayOfMs ms, weekOfMs ms, monthOfMs ms, yearOfMs ms, weekdayOfMs ms⟩

/-! ## The catalog resolver -/

/-- The catalog dimension tables the `song_select` lookup reads. -/
structure Database where
  songs : List SongRow
  artists : List ArtistRow
  deriving Repr, DecidableEq

/-- The joined catalog rows matching one lookup key: `(song_id, artist_id)`
of every Song/Artist pair joined on `artist_id` whose title, artist name and
duration equal the key. -/
def matchRows (db : Database) (title artistName : String) (length : ℚ) :
    List (String × String) :=
  db.songs.flatMap fun s =>
    db.artists.filterMap fun a =>
      if s.artist_id = a.artist_id ∧ s.title = title ∧
          a.artist_name = artistName ∧ s.duration = length
      then some (s.song_id, a.artist_id) else none

/-- Modelled from the spec: the `song_select` query is defined in
`sql_queries.py`, which is not among the sources; per the spec it "performs
an equality lookup against the joined Song/Artist catalog on (title, artist
name, duration)", returning "the matching (song_id, artist_id) pair on a
single match", "(null, null) when zero rows match" (modelled as `none`, the
value `cur.fetchone()` yields for an empty result), and an arbitrary
deterministic row on multiple matches (here: the first in the store's
natural order). -/
def song_select (db : Database) (title artistName : String) (length : ℚ) :
    Option (String × String) :=
  (matchRows db title artistName length).head?

/-! ## `process_song_file` -/

/-- `process_song_file`, given the parsed records of one catalog file:
takes row 0 of the dataframe (`values[0]` raises `IndexError` on an empty
frame, hence `Option`), and executes one `song_table_insert` with
`(song_id, title, artist_id, year, duration)` followed by one
`artist_table_insert` with `(artist_id, artist_name, artist_location,
artist_latitude, artist_longitude)`. -/
def process_song_file (records : List SongRecord) : Option (List DBOp) :=
  match records with
  | [] => none
  | r :: _ =>
    some [DBOp.songInsert ⟨r.song_id, r.title, r.artist_id, r.year, r.duration⟩,
          DBOp.artistInsert ⟨r.artist_id, r.artist_name, r.artist_location,
            r.artist_latitude, r.artist_longitude⟩]

/-! ## `process_log_file` -/

/-- The Songplay row composed for one filtered event: timestamp, user id,
level, the unpacked resolver result (`songid, artistid = results` when
`fetchone` returned a row, `None, None` otherwise), session id, location
and user agent. -/
def composeSongplay (db : Database) (e : LogEvent) : SongplayRow :=
  match song_select db e.song e.artist e.length with
  | some (s, a) =>
    ⟨e.ts, e.userId, e.level, some s, some a, e.sessionId, e.location, e.userAgent⟩
  | none =>
    ⟨e.ts, e.userId, e.level, none, none, e.sessionId, e.location, e.userAgent⟩

/-- `process_log_file`, given the parsed events of one activity-log file and
the catalog the `song_select` lookups run against.  Mirrors the source:
filter by `page == 'NextSong'`; insert one `time` row per filtered event;
then one `users` row per filtered event; then, per filtered event, run
`song_select` and insert the composed `songplays` row.  The result is the
trace of `cur.execute` calls in order. -/
def process_log_file (db : Database) (events : List LogEvent) : List DBOp :=
  let df := events.filter fun e => e.page == "NextSong"
  (df.map fun e => DBOp.timeInsert (mkTimeRow e.ts)) ++
  (df.map fun e =>
    DBOp.userInsert ⟨e.userId, e.firstName, e.lastName, e.gender, e.level⟩) ++
  df.flatMap fun e =>
    [DBOp.songSelect e.song e.artist e.length,
     DBOp.songplayInsert (composeSongplay db e)]

/-- The `df` of `process_log_file` after the page filter. -/
def filteredEvents (events : List LogEvent) : List LogEvent :=
  events.filter fun e => e.page == "NextSong"

/-- The block of `time_table_insert` executions of `process_log_file`. -/
def timePhase (events : List LogEvent) : List DBOp :=
  (filteredEvents events).map fun e => DBOp.timeInsert (mkTimeRow e.ts)

/-- The block of `user_table_insert` executions of `process_log_file`. -/
def userPhase (events : List LogEvent) : List DBOp :=
  (filteredEvents events).map fun e =>
    DBOp.userInsert ⟨e.userId, e.firstName, e.lastName, e.gender, e.level⟩

/-- The block of `song_select`/`songplay_table_insert` executions of
`process_log_file`. -/
def factPhase (db : Database) (events : List LogEvent) : List DBOp :=
  (filteredEvents events).flatMap fun e =>
    [DBOp.songSelect e.song e.artist e.length,
     DBOp.songplayInsert (composeSongplay db e)]

/-! ## `process_data` -/

/-- Errors that can abort a run.  `discoveryError` appears in the spec's
taxonomy only; nothing in the source raises it. -/
inductive EtlError where
  | parseError
  | persistenceError
  | discoveryError
  deriving Repr, DecidableEq

/-- Observable driver events: the "`N` files found in `root`" report, the
invocation of the per-file handler, the per-file `conn.commit()`, and the
"`i`/`N` files processed" report. -/
inductive DriverEvent where
  | found (n : Nat) (root : String)
  | processed (f : String)
  | committed (f : String) (ops : List DBOp)
  | progress (i : Nat) (n : Nat)
  deriving Repr, DecidableEq

/-- The output of `os.walk(filepath)` as the loop of `process_data` consumes
it: one `(root, files-in-root)` pair per directory walked, top-down and
recursively into every nested subdirectory.  `os.walk` on a missing or
unreadable directory yields the empty sequence (its default `onerror=None`
swallows the scandir failure). -/
abbrev Walk : Type := List (String × List String)

/-- The filename test of `glob.glob(os.path.join(root, '*.json'))`: the name
carries the `.json` extension. -/
def hasJsonExt (f : String) : Bool :=
  ".json".data.isSuffixOf f.data

/-- File discovery of `process_data`: for each walked directory, the files
matching `glob.glob(os.path.join(root, '*.json'))`, i.e. the files of that
directory with the `.json` extension, joined to the directory path. -/
def discoverFiles (walk : Walk) : List String :=
  walk.flatMap fun entry =>
    (entry.2.filter fun f => hasJsonExt f).map fun f => entry.1 ++ "/" ++ f

/-- The `for i, datafile in enumerate(all_files, 1)` loop of `process_data`:
invoke the handler, commit, report progress `i/total`, continue; an
exception raised by the handler propagates, aborting the run with nothing
further executed. -/
def processLoop (handler : String → Except EtlError (List DBOp)) (total : Nat) :
    Nat → List String → List DriverEvent × Option EtlError
  | _, [] => ([], none)
  | i, f :: fs =>
    match handler f with
    | .error e => ([DriverEvent.processed f], some e)
    | .ok ops =>
      let rest := processLoop handler total (i + 1) fs
      (DriverEvent.processed f :: DriverEvent.committed f ops ::
        DriverEvent.progress i total :: rest.1, rest.2)

/-- `process_data`: discover all `.json` files under the walked root, report
the count found, then process each file in turn with per-file commit and
progress reporting.  Returns the event trace and the error that aborted the
run, if any. -/
def process_data (handler : String → Except EtlError (List DBOp))
    (walk : Walk) (root : String) : List DriverEvent × Option EtlError :=
  let all_files := discoverFiles walk
  let run := processLoop handler all_files.length 1 all_files
  (DriverEvent.found all_files.length root :: run.1, run.2)

/-! ## Trace observations -/

/-- The `time` rows inserted by a trace, in order. -/
def extractTimeRows (ops : List DBOp) : List TimeRow :=
  ops.filterMap fun op =>
    match op with
    | DBOp.timeInsert r => some r
    | _ => none

/-- The `users` rows inserted by a trace, in order. -/
def extractUserRows (ops : List DBOp) : List UserRow :=
  ops.filterMap fun op =>
    match op with
    | DBOp.userInsert r => some r
    | _ => none

/-- The `songplays` rows inserted by a trace, in order. -/
def extractSongplayRows (ops : List DBOp) : List SongplayRow :=
  ops.filterMap fun op =>
    match op with
    | DBOp.songplayInsert r => some r
    | _ => none

/-- Whether an operation is a `time` insert. -/
def DBOp.isTimeInsert : DBOp → Bool
  | DBOp.timeInsert _ => true
  | _ => false

/-- Whether an operation is a `users` insert. -/
def DBOp.isUserInsert : DBOp → Bool
  | DBOp.userInsert _ => true
  | _ => false

/-- Whether an operation is a resolver lookup or a `songplays` insert. -/
def DBOp.isFactPhase : DBOp → Bool
  | DBOp.songSelect _ _ _ => true
  | DBOp.songplayInsert _ => true
  | _ => false

/-! ## Concrete fixtures -/

/-- The spec's example catalog: Song S1 "Fake Song" (duration 200.0) owned by
Artist A1 "Fake Artist". -/
def exampleDb : Database :=
  ⟨[⟨"S1", "Fake Song", "A1", 0, 200⟩], [⟨"A1", "Fake Artist", "", none, none⟩]⟩

/-- A NextSong event that matches the example catalog. -/
def evHit : LogEvent :=
  ⟨"NextSong", 1678887900000, "U1", "Ada", "L", "F", "paid",
   "Fake Song", "Fake Artist", 200, 7, "Loc", "UA"⟩

/-- A non-NextSong event. -/
def evHome : LogEvent :=
  ⟨"Home", 1678887900000, "U1", "Ada", "L", "F", "paid",
   "x", "y", 1, 7, "Loc", "UA"⟩

/-- A NextSong event with no matching catalog row. -/
def evMiss : LogEvent :=
  ⟨"NextSong", 1678887900000, "U2", "Bo", "M", "M", "free",
   "Unknown", "Nobody", 1, 8, "Loc2", "UA2"⟩

/-- A walk of one directory holding three catalog files. -/
def walk3 : Walk := [("r", ["a.json", "b.json", "c.json"])]

/-- A handler that succeeds (with an empty write set) on the first of the
three walked files and fails parsing every other file. -/
def handlerFailB : String → Except EtlError (List DBOp) :=
  fun f => if f = "r/a.json" then Except.ok [] else Except.error EtlError.parseError

/-- A handler that always succeeds with an empty write set. -/
def handlerOk : String → Except EtlError (List DBOp) :=
  fun _ => Except.ok []

/-! ## Helper lemmas -/

lemma extractTimeRows_append (a b : List DBOp) :
    extractTimeRows (a ++ b) = extractTimeRows a ++ extractTimeRows b :=
  List.filterMap_append a b _

lemma extractUserRows_append (a b : List DBOp) :
    extractUserRows (a ++ b) = extractUserRows a ++ extractUserRows b :=
  List.filterMap_append a b _

lemma extractSongplayRows_append (a b : List DBOp) :
    extractSongplayRows (a ++ b) = extractSongplayRows a ++ extractSongplayRows b :=
  List.filterMap_append a b _

lemma extractTimeRows_timeOps (l : List LogEvent) (f : LogEvent → TimeRow) :
    extractTimeRows (l.map fun e => DBOp.timeInsert (f e)) = l.map f := by
  induction l with
  | nil => rfl
  | cons e t ih =>
    simp only [List.map_cons, extractTimeRows, List.filterMap_cons] at ih ⊢
    rw [ih]

lemma extractTimeRows_userOps (l : List LogEvent) (f : LogEvent → UserRow) :
    extractTimeRows (l.map fun e => DBOp.userInsert (f e)) = [] := by
  induction l with
  | nil => rfl
  | cons e t ih => simp [extractTimeRows, List.filterMap_cons]

lemma extractTimeRows_factOps (db : Database) (l : List LogEvent) :
    extractTimeRows (l.flatMap fun e =>
      [DBOp.songSelect e.song e.artist e.length,
       DBOp.songplayInsert (composeSongplay db e)]) = [] := by
  induction l with
  | nil => rfl
  | cons e t ih =>
    simpa [List.flatMap_cons, extractTimeRows, List.filterMap_cons,
      List.filterMap_append] using ih

lemma extractUserRows_timeOps (l : List LogEvent) (f : LogEvent → TimeRow) :
    extractUserRows (l.map fun e => DBOp.timeInsert (f e)) = [] := by
  induction l with
  | nil => rfl
  | cons e t ih => simp [extractUserRows, List.filterMap_cons]

lemma extractUserRows_userOps (l : List LogEvent) (f : LogEvent → UserRow) :
    extractUserRows (l.map fun e => DBOp.userInsert (f e)) = l.map f := by
  induction l with
  | nil => rfl
  | cons e t ih =>
    simp only [List.map_cons, extractUserRows, List.filterMap_cons] at ih ⊢
    rw [ih]

lemma extractUserRows_factOps (db : Database) (l : List LogEvent) :
    extractUserRows (l.flatMap fun e =>
      [DBOp.songSelect e.song e.artist e.length,
       DBOp.songplayInsert (composeSongplay db e)]) = [] := by
  induction l with
  | nil => rfl
  | cons e t ih =>
    simpa [List.flatMap_cons, extractUserRows, List.filterMap_cons,
      List.filterMap_append] using ih

lemma extractSongplayRows_timeOps (l : List LogEvent) (f : LogEvent → TimeRow) :
    extractSongplayRows (l.map fun e => DBOp.timeInsert (f e)) = [] := by
  induction l with
  | nil => rfl
  | cons e t ih => simp [extractSongplayRows, List.filterMap_cons]

lemma extractSongplayRows_userOps (l : List LogEvent) (f : LogEvent → UserRow) :
    extractSongplayRows (l.map fun e => DBOp.userInsert (f e)) = [] := by
  induction l with
  | nil => rfl
  | cons e t ih => simp [extractSongplayRows, List.filterMap_cons]

lemma extractSongplayRows_factOps (db : Database) (l : List LogEvent) :
    extractSongplayRows (l.flatMap fun e =>
      [DBOp.songSelect e.song e.artist e.length,
       DBOp.songplayInsert (composeSongplay db e)]) = l.map (composeSongplay db) := by
  induction l with
  | nil => rfl
  | cons e t ih =>
    simp only [List.flatMap_cons, List.map_cons, extractSongplayRows,
      List.filterMap_cons, List.filterMap_append, List.filterMap_nil,
      List.cons_append, List.nil_append] at ih ⊢
    rw [ih]

/-- The time rows a log-file run inserts: one per filtered event, in order. -/
lemma extractTimeRows_pll (db : Database) (evs : List LogEvent) :
    extractTimeRows (process_log_file db evs) =
      (evs.filter fun e => e.page == "NextSong").map fun e => mkTimeRow e.ts := by
  unfold process_log_file
  rw [extractTimeRows_append, extractTimeRows_append, extractTimeRows_timeOps,
    extractTimeRows_userOps, extractTimeRows_factOps, List.append_nil,
    List.append_nil]

/-- The user rows a log-file run inserts: one per filtered event, in order. -/
lemma extractUserRows_pll (db : Database) (evs : List LogEvent) :
    extractUserRows (process_log_file db evs) =
      (evs.filter fun e => e.page == "NextSong").map fun e =>
        (⟨e.userId, e.firstName, e.lastName, e.gender, e.level⟩ : UserRow) := by
  unfold process_log_file
  rw [extractUserRows_append, extractUserRows_append, extractUserRows_timeOps,
    extractUserRows_userOps, extractUserRows_factOps, List.append_nil,
    List.nil_append]

/-- The songplay rows a log-file run inserts: one per filtered event, in
order. -/
lemma extractSongplayRows_pll (db : Database) (evs : List LogEvent) :
    extractSongplayRows (process_log_file db evs) =
      (evs.filter fun e => e.page == "NextSong").map (composeSongplay db) := by
  unfold process_log_file
  rw [extractSongplayRows_append, extractSongplayRows_append,
    extractSongplayRows_timeOps, extractSongplayRows_userOps,
    extractSongplayRows_factOps, List.nil_append, List.nil_append]

/-- An index holding an element satisfying `p` lies left of a suffix free of
`p`. -/
lemma idx_lt_of_suffix_free {α : Type _} (A B : List α) (p : α → Bool)
    (hB : ∀ x ∈ B, p x = false) {i : Nat} (hi : i < (A ++ B).length)
    (hp : p ((A ++ B).get ⟨i, hi⟩) = true) : i < A.length := by
  by_contra h
  push_neg at h
  have he : (A ++ B).get ⟨i, hi⟩ = B.get ⟨i - A.length, by
      have := List.length_append A B
      omega⟩ := by
    simpa using List.getElem_append_right h
  have : p ((A ++ B).get ⟨i, hi⟩) = false := by
    rw [he]
    exact hB _ (List.getElem_mem _)
  rw [hp] at this
  exact Bool.true_eq_false.mp this

/-- An index holding an element satisfying `p` lies right of a prefix free of
`p`. -/
lemma idx_ge_of_prefix_free {α : Type _} (A B : List α) (p : α → Bool)
    (hA : ∀ x ∈ A, p x = false) {i : Nat} (hi : i < (A ++ B).length)
    (hp : p ((A ++ B).get ⟨i, hi⟩) = true) : A.length ≤ i := by
  by_contra h
  push_neg at h
  have he : (A ++ B).get ⟨i, hi⟩ = A.get ⟨i, h⟩ := by
    simpa using List.getElem_append_left h
  have : p ((A ++ B).get ⟨i, hi⟩) = false := by
    rw [he]
    exact hA _ (List.getElem_mem _)
  rw [hp] at this
  exact Bool.true_eq_false.mp this

/-- Elements `p`-true in a prefix and `q`-true in a suffix are ordered. -/
lemma phase_lt {α : Type _} (l A B : List α) (p q : α → Bool)
    (hl : l = A ++ B)
    (hA : ∀ x ∈ A, q x = false) (hB : ∀ x ∈ B, p x = false)
    {i j : Nat} (hi : i < l.length) (hj : j < l.length)
    (hp : p (l.get ⟨i, hi⟩) = true) (hq : q (l.get ⟨j, hj⟩) = true) :
    i < j := by
  subst hl
  have h1 : i < A.length := idx_lt_of_suffix_free A B p hB hi hp
  have h2 : A.length ≤ j := idx_ge_of_prefix_free A B q hA hj hq
  omega

/-- `process_log_file` is the concatenation of its three phases. -/
lemma process_log_file_phases (db : Database) (evs : List LogEvent) :
    process_log_file db evs =
      timePhase evs ++ userPhase evs ++ factPhase db evs := rfl

lemma isUserInsert_false_timePhase (evs : List LogEvent) :
    ∀ x ∈ timePhase evs, x.isUserInsert = false := by
  intro x hx
  obtain ⟨e, -, rfl⟩ := List.mem_map.mp hx
  rfl

lemma isTimeInsert_false_userPhase (evs : List LogEvent) :
    ∀ x ∈ userPhase evs, x.isTimeInsert = false := by
  intro x hx
  obtain ⟨e, -, rfl⟩ := List.mem_map.mp hx
  rfl

lemma isTimeInsert_false_factPhase (db : Database) (evs : List LogEvent) :
    ∀ x ∈ factPhase db evs, x.isTimeInsert = false := by
  intro x hx
  obtain ⟨e, -, he⟩ := List.mem_flatMap.mp hx
  simp only [List.mem_cons, List.not_mem_nil, or_false] at he
  rcases he with rfl | rfl <;> rfl

lemma isUserInsert_false_factPhase (db : Database) (evs : List LogEvent) :
    ∀ x ∈ factPhase db evs, x.isUserInsert = false := by
  intro x hx
  obtain ⟨e, -, he⟩ := List.mem_flatMap.mp hx
  simp only [List.mem_cons, List.not_mem_nil, or_false] at he
  rcases he with rfl | rfl <;> rfl

lemma isFactPhase_false_timePhase (evs : List LogEvent) :
    ∀ x ∈ timePhase evs, x.isFactPhase = false := by
  intro x hx
  obtain ⟨e, -, rfl⟩ := List.mem_map.mp hx
  rfl

lemma isFactPhase_false_userPhase (evs : List LogEvent) :
    ∀ x ∈ userPhase evs, x.isFactPhase = false := by
  intro x hx
  obtain ⟨e, -, rfl⟩ := List.mem_map.mp hx
  rfl

/-! ## Claims -/

/-- C1: for every activity-log file, the number of Time candidate rows, User
candidate rows and Songplay candidate rows inserted by `process_log_file`
each equals the number of events whose `page` field is exactly `"NextSong"`;
other events contribute zero rows. -/
theorem c1_row_counts (db : Database) (evs : List LogEvent) :
    (extractTimeRows (process_log_file db evs)).length =
      (evs.filter fun e => e.page == "NextSong").length ∧
    (extractUserRows (process_log_file db evs)).length =
      (evs.filter fun e => e.page == "NextSong").length ∧
    (extractSongplayRows (process_log_file db evs)).length =
      (evs.filter fun e => e.page == "NextSong").length :=
  ⟨by rw [extractTimeRows_pll, List.length_map],
   by rw [extractUserRows_pll, List.length_map],
   by rw [extractSongplayRows_pll, List.length_map]⟩

/-- C2: the resolver lookup on (title, artist name, duration) returns the
matching `(song_id, artist_id)` pair when exactly one catalog row matches
and `none` (null, null) when zero rows match; in particular it returns
`(S1, A1)` for the spec's example catalog and event, and `none` for an event
with no matching row. -/
theorem c2_resolver :
    (∀ (db : Database) (t a : String) (l : ℚ) (p : String × String),
        matchRows db t a l = [p] → song_select db t a l = some p) ∧
    (∀ (db : Database) (t a : String) (l : ℚ),
        matchRows db t a l = [] → song_select db t a l = none) ∧
    song_select exampleDb "Fake Song" "Fake Artist" 200 = some ("S1", "A1") ∧
    song_select exampleDb "Unknown" "Nobody" 1 = none := by
  refine ⟨?_, ?_, by decide, by decide⟩
  · intro db t a l p h
    unfold song_select
    rw [h]
    rfl
  · intro db t a l h
    unfold song_select
    rw [h]
    rfl

/-- Witness for C2 at the spec's concrete catalog. -/
theorem c2_resolver_witness :
    song_select exampleDb "Fake Song" "Fake Artist" 200 = some ("S1", "A1") ∧
    song_select (Database.mk [] []) "x" "y" 0 = none :=
  ⟨c2_resolver.1 exampleDb "Fake Song" "Fake Artist" 200 ("S1", "A1") (by decide),
   c2_resolver.2.1 (Database.mk [] []) "x" "y" 0 rfl⟩

/-- C3: in every Songplay row composed by `process_log_file`, `song_id` and
`artist_id` are both null or both non-null. -/
theorem c3_ids_null_together (db : Database) (evs : List LogEvent)
    (r : SongplayRow)
    (hr : r ∈ extractSongplayRows (process_log_file db evs)) :
    r.song_id = none ↔ r.artist_id = none := by
  rw [extractSongplayRows_pll] at hr
  obtain ⟨e, -, rfl⟩ := List.mem_map.mp hr
  rcases h : song_select db e.song e.artist e.length with - | ⟨s, a⟩ <;>
    simp [composeSongplay, h]

/-- Witness for C3: the row composed for a resolver miss. -/
theorem c3_ids_null_together_witness :
    ((⟨1678887900000, "U2", "free", none, none, 8, "Loc2", "UA2"⟩ :
        SongplayRow).song_id = none ↔
     (⟨1678887900000, "U2", "free", none, none, 8, "Loc2", "UA2"⟩ :
        SongplayRow).artist_id = none) :=
  c3_ids_null_together exampleDb [evMiss] _ (by decide)

/-- C4: for every valid (nonempty) catalog file, `process_song_file` inserts
exactly one Song row and one Artist row, each a verbatim projection of the
source record's fields. -/
theorem c4_song_file_projection (r : SongRecord) (rest : List SongRecord) :
    process_song_file (r :: rest) =
      some [DBOp.songInsert ⟨r.song_id, r.title, r.artist_id, r.year, r.duration⟩,
            DBOp.artistInsert ⟨r.artist_id, r.artist_name, r.artist_location,
              r.artist_latitude, r.artist_longitude⟩] := rfl

/-- C9: for a catalog file with more than one record, `process_song_file`
inserts only the rows derived from the first record; later records
contribute nothing. -/
theorem c9_first_record_only (r : SongRecord) (rest : List SongRecord) :
    process_song_file (r :: rest) = process_song_file [r] := rfl

/-- C6: the Time extraction derives hour, day, ISO week, month, year and
weekday from the event's millisecond timestamp for every filtered event; in
particular 1678887900000 ms (2023-03-15 13:45:00 UTC) decomposes to
hour 13, day 15, week 11, month 3, year 2023 and weekday 2 (Wednesday,
Monday = 0). -/
theorem c6_time_decomposition :
    (∀ (db : Database) (evs : List LogEvent),
        extractTimeRows (process_log_file db evs) =
          (evs.filter fun e => e.page == "NextSong").map fun e =>
            mkTimeRow e.ts) ∧
    mkTimeRow 1678887900000 = ⟨1678887900000, 13, 15, 11, 3, 2023, 2⟩ :=
  ⟨extractTimeRows_pll, by decide⟩

/-- C7: `process_log_file` inserts exactly one Songplay row per filtered
event, in source order, and every Time insert precedes every Songplay
insert (in particular the one of the same event). -/
theorem c7_fact_composer_order (db : Database) (evs : List LogEvent) :
    extractSongplayRows (process_log_file db evs) =
      (evs.filter fun e => e.page == "NextSong").map (composeSongplay db) ∧
    ∃ A B, process_log_file db evs = A ++ B ∧
      extractSongplayRows A = [] ∧ extractTimeRows B = [] := by
  refine ⟨extractSongplayRows_pll db evs, ?_⟩
  refine ⟨timePhase evs ++ userPhase evs, factPhase db evs,
    process_log_file_phases db evs, ?_, ?_⟩
  · unfold timePhase userPhase
    rw [extractSongplayRows_append, extractSongplayRows_timeOps,
      extractSongplayRows_userOps, List.append_nil]
  · unfold factPhase
    exact extractTimeRows_factOps db _

/-- C10: within one file, `process_log_file` works in three strict phases:
every Time insert precedes every User insert, and every User insert precedes
every resolver lookup and Songplay insert. -/
theorem c10_strict_phases (db : Database) (evs : List LogEvent) :
    (∀ (i j : Nat) (hi : i < (process_log_file db evs).length)
        (hj : j < (process_log_file db evs).length),
      ((process_log_file db evs).get ⟨i, hi⟩).isTimeInsert = true →
      ((process_log_file db evs).get ⟨j, hj⟩).isUserInsert = true → i < j) ∧
    (∀ (i j : Nat) (hi : i < (process_log_file db evs).length)
        (hj : j < (process_log_file db evs).length),
      ((process_log_file db evs).get ⟨i, hi⟩).isUserInsert = true →
      ((process_log_file db evs).get ⟨j, hj⟩).isFactPhase = true → i < j) := by
  constructor
  · intro i j hi hj hp hq
    refine phase_lt _ (timePhase evs) (userPhase evs ++ factPhase db evs)
      DBOp.isTimeInsert DBOp.isUserInsert ?_ ?_ ?_ hi hj hp hq
    · rw [process_log_file_phases, List.append_assoc]
    · exact isUserInsert_false_timePhase evs
    · intro x hx
      rcases List.mem_append.mp hx with h | h
      · exact isTimeInsert_false_userPhase evs x h
      · exact isTimeInsert_false_factPhase db evs x h
  · intro i j hi hj hp hq
    refine phase_lt _ (timePhase evs ++ userPhase evs) (factPhase db evs)
      DBOp.isUserInsert DBOp.isFactPhase
      (process_log_file_phases db evs) ?_ ?_ hi hj hp hq
    · intro x hx
      rcases List.mem_append.mp hx with h | h
      · exact isFactPhase_false_timePhase evs x h
      · exact isFactPhase_false_userPhase evs x h
    · exact isUserInsert_false_factPhase db evs

/-- Witness for C10 on a one-event log file: its trace is
time(0), user(1), select(2), songplay(3). -/
theorem c10_strict_phases_witness : (0 : Nat) < 1 ∧ (1 : Nat) < 2 :=
  ⟨(c10_strict_phases exampleDb [evMiss]).1 0 1 (by decide) (by decide)
      (by decide) (by decide),
   (c10_strict_phases exampleDb [evMiss]).2 1 2 (by decide) (by decide)
      (by decide) (by decide)⟩

/-- C5: the driver commits each file right after its handler completes and
before the next file; a handler failure aborts the whole run.  With three
discovered files where the second fails parsing: the first file is processed
and committed (with progress reported), the run ends with the ParseError,
the second file is never committed and the third is never processed. -/
theorem c5_abort_semantics (handler : String → Except EtlError (List DBOp))
    (ops1 : List DBOp)
    (h1 : handler "r/a.json" = Except.ok ops1)
    (h2 : handler "r/b.json" = Except.error EtlError.parseError) :
    process_data handler walk3 "r" =
      ([DriverEvent.found 3 "r", DriverEvent.processed "r/a.json",
        DriverEvent.committed "r/a.json" ops1, DriverEvent.progress 1 3,
        DriverEvent.processed "r/b.json"], some EtlError.parseError) ∧
    (∀ ops, DriverEvent.committed "r/b.json" ops ∉
      (process_data handler walk3 "r").1) ∧
    DriverEvent.processed "r/c.json" ∉ (process_data handler walk3 "r").1 := by
  have hw : discoverFiles walk3 = ["r/a.json", "r/b.json", "r/c.json"] := by decide
  have hmain : process_data handler walk3 "r" =
      ([DriverEvent.found 3 "r", DriverEvent.processed "r/a.json",
        DriverEvent.committed "r/a.json" ops1, DriverEvent.progress 1 3,
        DriverEvent.processed "r/b.json"], some EtlError.parseError) := by
    unfold process_data
    rw [hw]
    simp [processLoop, h1, h2]
  refine ⟨hmain, ?_, ?_⟩
  · intro ops
    rw [hmain]
    simp
  · rw [hmain]
    simp

/-- Witness for C5 with a concrete handler failing on the second file. -/
theorem c5_abort_semantics_witness :
    process_data handlerFailB walk3 "r" =
      ([DriverEvent.found 3 "r", DriverEvent.processed "r/a.json",
        DriverEvent.committed "r/a.json" [], DriverEvent.progress 1 3,
        DriverEvent.processed "r/b.json"], some EtlError.parseError) :=
  (c5_abort_semantics handlerFailB [] (by rfl) (by rfl)).1

/-- C8 counterexample: on a missing (or unreadable) root directory `os.walk`
yields nothing, so `process_data` reports 0 files and completes without any
error — it does not fail with a DiscoveryError. -/
theorem c8_no_discovery_error :
    (process_data handlerOk ([] : Walk) "data/song_data").2 ≠
      some EtlError.discoveryError := by decide

/-- C8 (amended): a missing/unreadable root yields a run that reports
"0 files found" and processes nothing, with no error; when the directory
exists, the discovered files are exactly the `.json` files of every walked
directory (nested directories included), the total count is reported first,
and after each successfully handled file the driver commits and reports
progress before touching the next file. -/
theorem c8_discovery_and_progress :
    (∀ (handler : String → Except EtlError (List DBOp)) (root : String),
        process_data handler ([] : Walk) root =
          ([DriverEvent.found 0 root], none)) ∧
    (∀ (walk : Walk) (f : String),
        f ∈ discoverFiles walk ↔
          ∃ entry ∈ walk, ∃ name ∈ entry.2,
            hasJsonExt name = true ∧ f = entry.1 ++ "/" ++ name) ∧
    (∀ (handler : String → Except EtlError (List DBOp)) (walk : Walk)
        (root : String),
        (process_data handler walk root).1.head? =
          some (DriverEvent.found (discoverFiles walk).length root)) ∧
    (∀ (handler : String → Except EtlError (List DBOp)) (total i : Nat)
        (f : String) (fs : List String) (ops : List DBOp),
        handler f = Except.ok ops →
        processLoop handler total i (f :: fs) =
          (DriverEvent.processed f :: DriverEvent.committed f ops ::
            DriverEvent.progress i total ::
            (processLoop handler total (i + 1) fs).1,
           (processLoop handler total (i + 1) fs).2)) := by
  refine ⟨fun handler root => rfl, ?_, fun handler walk root => rfl, ?_⟩
  · intro walk f
    simp only [discoverFiles, List.mem_flatMap, List.mem_map, List.mem_filter]
    constructor
    · rintro ⟨entry, hentry, name, ⟨hname, hjson⟩, rfl⟩
      exact ⟨entry, hentry, name, hname, hjson, rfl⟩
    · rintro ⟨entry, hentry, name, hname, hjson, rfl⟩
      exact ⟨entry, hentry, name, ⟨hname, hjson⟩, rfl⟩
  · intro handler total i f fs ops h
    simp [processLoop, h]

/-- Witness for C8 at a concrete handler, walk and file list. -/
theorem c8_discovery_and_progress_witness :
    process_data handlerOk ([] : Walk) "d" = ([DriverEvent.found 0 "d"], none) ∧
    processLoop handlerOk 1 1 ["f.json"] =
      (DriverEvent.processed "f.json" :: DriverEvent.committed "f.json" [] ::
        DriverEvent.progress 1 1 :: (processLoop handlerOk 1 2 []).1,
       (processLoop handlerOk 1 2 []).2) :=
  ⟨c8_discovery_and_progress.1 handlerOk "d",
   c8_discovery_and_progress.2.2.2 handlerOk 1 1 "f.json" [] [] rfl⟩

end Etl
